import Mathlib

/-!
Shallow embedding of `breakers/breaker.py` (marcusmartins/breakers).

Modelling decisions:
* Timestamps are `Int` (Python 2 integers; `now()` is `int(time.time())`).
* The `SortedList` windows are modelled as `List Int` seen as multisets:
  only lengths, emptiness and membership matter to any property here, and
  `SortedList.irange(lo)` (inclusive lower bound) on a sorted list returns
  exactly the elements `≥ lo`, which equals `List.filter (lo ≤ ·)` up to
  permutation on any list with the same multiset of elements.
* The current time is passed explicitly: each bookkeeping step receives the
  `now` at which it runs, mirroring the module-level `now()` helper.
* Exceptions raised by the wrapped operation are a parameter `ε`; the
  breaker's own outcomes are the constructors of `CallResult`.
* `breakers/exceptions.py` is not under `src/`, but the claims only need
  that `BreakerOpen` is a distinguishable error kind, which the
  `CallResult.breakerOpen` constructor provides.
-/

/-- State of one `Breaker` instance (`Breaker.__init__`).  Configuration
fields first, then the mutable attributes `_last_open`, `_calls`,
`_errors`.  The locks have no observable content in a sequential model. -/
structure Breaker where
  service : String
  strategy : String
  duration : Int
  threshold : Int
  reenable_after : Int
  last_open : Option Int
  calls : List Int
  errors : List Int
  deriving Repr, DecidableEq

namespace Breaker

/-- `self._minimum_threshold`: set to the constant 5 by `__init__` and
never written anywhere else. -/
def minimum_threshold : Nat := 5

/-- `Breaker(threshold, service, duration, reenable_after, strategy)`:
the constructor with its default arguments. -/
def init (threshold : Int) (service : Option String := none)
    (duration : Int := 60) (reenable_after : Int := 300)
    (strategy : String := "absolute") : Breaker :=
  { service := service.getD "default"
    strategy := strategy
    duration := duration
    threshold := threshold
    reenable_after := reenable_after
    last_open := none
    calls := []
    errors := [] }

/-- The pruning step of `increment_rolling_window`:
`SortedList(counter.irange(now() - self.duration))` keeps exactly the
entries `t` with `now - duration ≤ t` (the `irange` lower bound is
inclusive). -/
def prune (now duration : Int) (w : List Int) : List Int :=
  w.filter (fun t => decide (now - duration ≤ t))

/-- `Breaker.increment_rolling_window`: prune entries older than the
window, add `now`, and return the new window together with its
cardinality. -/
def increment_rolling_window (now duration : Int) (w : List Int) :
    List Int × Nat :=
  let w' := prune now duration w ++ [now]
  (w', w'.length)

/-- `Breaker.half_open` (property): `last_open` is set and
`last_open < now() - reenable_after` — a strict inequality. -/
def half_open (b : Breaker) (now : Int) : Bool :=
  match b.last_open with
  | some t => decide (t < now - b.reenable_after)
  | none => false

/-- `Breaker.open` (property): `last_open` is set and
`last_open > now() - reenable_after` — a strict inequality.  (`open` is a
Lean keyword, hence the name `isOpen`.) -/
def isOpen (b : Breaker) (now : Int) : Bool :=
  match b.last_open with
  | some t => decide (t > now - b.reenable_after)
  | none => false

/-- `Breaker.trip`: `self._last_open = now()`. -/
def trip (b : Breaker) (now : Int) : Breaker :=
  { b with last_open := some now }

/-- `Breaker.reset`: clear `_last_open` and replace `_errors` with an
empty list; `_calls` and all configuration fields are untouched. -/
def reset (b : Breaker) : Breaker :=
  { b with last_open := none, errors := [] }

/-- `Breaker.should_open_absolute`: `error_count >= self.threshold`. -/
def should_open_absolute (b : Breaker) (error_count : Nat) : Bool :=
  decide ((error_count : Int) ≥ b.threshold)

/-- `Breaker.should_open_percentage`: returns `False` below the minimum
call volume, otherwise compares `error_count * 100 / len(self._calls)`
(Python 2 integer floor division — the test-suite uses `xrange`) against
the threshold. -/
def should_open_percentage (b : Breaker) (error_count : Nat) : Bool :=
  if b.calls.length < minimum_threshold then
    false
  else
    decide (((error_count * 100 / b.calls.length : Nat) : Int) ≥ b.threshold)

/-- `Breaker.should_open`: dispatch on the strategy string; an unknown
strategy raises `NotImplementedError`. -/
def should_open (b : Breaker) (error_count : Nat) : Except String Bool :=
  if b.strategy = "absolute" then
    Except.ok (b.should_open_absolute error_count)
  else if b.strategy = "percentage" then
    Except.ok (b.should_open_percentage error_count)
  else
    Except.error ("NotImplementedError: `" ++ b.strategy ++
      "` strategy is not implemented")

/-- `Breaker.process_error`: increment the errors window, then trip when
half-open (checked first, short-circuiting the strategy dispatch) or when
the strategy says to open.  The second component is the exception raised
by `should_open` for an unknown strategy, which escapes after the errors
window was already updated and before any trip. -/
def process_error (b : Breaker) (now : Int) : Breaker × Option String :=
  let p := increment_rolling_window now b.duration b.errors
  let b' := { b with errors := p.1 }
  if b'.half_open now then
    (b'.trip now, none)
  else
    match b'.should_open p.2 with
    | Except.ok true => (b'.trip now, none)
    | Except.ok false => (b', none)
    | Except.error e => (b', some e)

/-- `Breaker.process_success`: reset when half-open, otherwise do
nothing. -/
def process_success (b : Breaker) (now : Int) : Breaker :=
  if b.half_open now then b.reset else b

end Breaker

/-- Outcome of a guarded call (`Breaker.call` / `Breaker.__call__`):
fail fast with `BreakerOpen`, succeed with the operation's value,
re-raise the operation's own error, or raise the breaker's internal
`NotImplementedError` from the strategy dispatch. -/
inductive CallResult (ε α : Type) where
  | breakerOpen : CallResult ε α
  | ok : α → CallResult ε α
  | opError : ε → CallResult ε α
  | internalError : String → CallResult ε α
  deriving Repr, DecidableEq

namespace Breaker

/-- `Breaker.call(func, ...)` (and identically `Breaker.__call__`): if
open, raise `BreakerOpen` before touching any state; otherwise record the
attempt in `_calls`, run the operation (its outcome is the parameter
`result`), then do the success or error bookkeeping.  On an operation
error, `process_error` runs first and the original error is re-raised —
unless `process_error` itself raised, in which case that internal error
propagates instead. -/
def call (b : Breaker) (now : Int) (result : Except ε α) :
    Breaker × CallResult ε α :=
  if b.isOpen now then
    (b, CallResult.breakerOpen)
  else
    let b1 := { b with calls := (increment_rolling_window now b.duration b.calls).1 }
    match result with
    | Except.ok a => (b1.process_success now, CallResult.ok a)
    | Except.error e =>
      match b1.process_error now with
      | (b2, none) => (b2, CallResult.opError e)
      | (b2, some msg) => (b2, CallResult.internalError msg)

end Breaker

/-! ## Concrete instances used by counterexamples and witnesses -/

/-- A tripped breaker (`_last_open = 0`) with `reenable_after = 10`,
otherwise the constructor defaults (`threshold=5`, absolute). -/
def exC1 : Breaker := { Breaker.init 5 none 60 10 with last_open := some 0 }

/-- Same shape as `exC1`, used for claim C2. -/
def exC2 : Breaker := { Breaker.init 5 none 60 10 with last_open := some 0 }

/-- Same shape as `exC1`, used for claim C3. -/
def exC3 : Breaker := { Breaker.init 5 none 60 10 with last_open := some 0 }

/-- Same shape as `exC1`, used for claim C4. -/
def exC4 : Breaker := { Breaker.init 5 none 60 10 with last_open := some 0 }

/-! ## C1 — derived state predicates -/

/-- C1, counterexample: the claim says `IsHalfOpen()` is true exactly when
`lastOpenAt` is set and `now - lastOpenAt >= reenableAfter`, and that when
`lastOpenAt` is set exactly one of `IsOpen()` / `IsHalfOpen()` holds.  At
the boundary `now - lastOpenAt = reenableAfter` (here `now = 10`,
`lastOpenAt = 0`, `reenableAfter = 10`) both comparisons in the code are
strict, so `half_open` is false although `now - lastOpenAt ≥
reenableAfter`, and neither predicate holds. -/
theorem C1_counterexample :
    exC1.last_open = some 0 ∧ (10 : Int) - 0 ≥ exC1.reenable_after ∧
    exC1.half_open 10 = false ∧ exC1.isOpen 10 = false := by
  decide

/-- C1, amended: `IsOpen()` is true exactly when `lastOpenAt` is set and
`now - lastOpenAt < reenableAfter`; `IsHalfOpen()` is true exactly when
`lastOpenAt` is set and `now - lastOpenAt > reenableAfter` (strictly);
when `lastOpenAt` is `None` both are false (Closed); and at most one of
the two holds — at `now - lastOpenAt = reenableAfter` neither does. -/
theorem C1_amended (b : Breaker) (now : Int) :
    (b.isOpen now = true ↔ ∃ t, b.last_open = some t ∧ now - t < b.reenable_after) ∧
    (b.half_open now = true ↔ ∃ t, b.last_open = some t ∧ b.reenable_after < now - t) ∧
    (b.last_open = none → b.isOpen now = false ∧ b.half_open now = false) ∧
    ¬(b.isOpen now = true ∧ b.half_open now = true) := by
  rcases hb : b.last_open with _ | t
  · simp [Breaker.isOpen, Breaker.half_open, hb]
  · simp [Breaker.isOpen, Breaker.half_open, hb]
    omega

/-! ## C2 — failure while half-open always re-trips -/

/-- C2, counterexample: the claim's notion of Half-Open is
`now - lastOpenAt >= reenableAfter`.  At the boundary `now - lastOpenAt =
reenableAfter` the code's `half_open` is false, so a failure there goes
through the normal threshold check (1 error < threshold 5) and does not
re-trip: `lastOpenAt` stays `0` instead of becoming `now = 10`. -/
theorem C2_counterexample :
    exC2.last_open = some 0 ∧ (10 : Int) - 0 ≥ exC2.reenable_after ∧
    (exC2.process_error 10).1.last_open = some 0 := by
  decide

/-- C2, amended: whenever `lastOpenAt` is set and `now - lastOpenAt >
reenableAfter` (strictly — the code's actual half-open condition), a
processed failure always re-trips: `lastOpenAt` becomes `now`, for every
strategy string and every threshold, because `process_error` checks
`half_open` before (and short-circuiting) the strategy's threshold
check. -/
theorem C2_amended (b : Breaker) (now t : Int) (h1 : b.last_open = some t)
    (h2 : b.reenable_after < now - t) :
    (b.process_error now).1.last_open = some now := by
  have hh : ({ b with errors := (Breaker.increment_rolling_window now b.duration b.errors).1 } : Breaker).half_open now = true := by
    simp [Breaker.half_open, h1]; omega
  simp [Breaker.process_error, hh, Breaker.trip]

/-- C2, witness: a concrete strictly-half-open breaker re-trips. -/
theorem C2_witness :
    exC2.last_open = some 0 ∧ exC2.reenable_after < (11 : Int) - 0 ∧
    (exC2.process_error 11).1.last_open = some 11 :=
  ⟨rfl, by decide, C2_amended exC2 11 0 rfl (by decide)⟩

/-! ## C3 — success while half-open fully resets -/

/-- C3, counterexample: at the boundary `now - lastOpenAt = reenableAfter`
(claimed to be Half-Open by the `>=` in the claim) the code's `half_open`
is false, so a successful guarded call does not reset: `lastOpenAt` stays
`some 0` instead of becoming `None`. -/
theorem C3_counterexample :
    exC3.last_open = some 0 ∧ (10 : Int) - 0 ≥ exC3.reenable_after ∧
    ((exC3.call 10 (Except.ok () : Except Unit Unit)).1.last_open = some 0) := by
  decide

/-- C3, amended: whenever `lastOpenAt` is set and `now - lastOpenAt >
reenableAfter` (strictly), one successful guarded call fully resets the
breaker: afterwards `lastOpenAt` is `None` and the errors window is
empty. -/
theorem C3_amended {ε α : Type} (b : Breaker) (now t : Int) (a : α)
    (h1 : b.last_open = some t) (h2 : b.reenable_after < now - t) :
    ((b.call now (Except.ok a : Except ε α)).1.last_open = none) ∧
    ((b.call now (Except.ok a : Except ε α)).1.errors = []) := by
  have ho : b.isOpen now = false := by
    simp [Breaker.isOpen, h1]; omega
  have hh : ({ b with calls := (Breaker.increment_rolling_window now b.duration b.calls).1 } : Breaker).half_open now = true := by
    simp [Breaker.half_open, h1]; omega
  simp [Breaker.call, ho, Breaker.process_success, hh, Breaker.reset]

/-- C3, witness: a concrete strictly-half-open breaker is fully reset by
one successful call. -/
theorem C3_witness :
    exC3.last_open = some 0 ∧ exC3.reenable_after < (11 : Int) - 0 ∧
    ((exC3.call 11 (Except.ok () : Except Unit Unit)).1.last_open = none) ∧
    ((exC3.call 11 (Except.ok () : Except Unit Unit)).1.errors = []) :=
  ⟨rfl, by decide, (C3_amended exC3 11 0 () rfl (by decide)).1,
    (C3_amended exC3 11 0 () rfl (by decide)).2⟩

/-! ## C4 — open breaker rejects calls without side effects -/

/-- C4: while `lastOpenAt` is set and `now - lastOpenAt < reenableAfter`,
a guarded call returns `BreakerOpen` and leaves the breaker exactly as it
was — the result is `(b, breakerOpen)` for every possible operation
outcome `r`, so the operation is never consulted and neither window nor
`lastOpenAt` changes. -/
theorem C4_open_rejects {ε α : Type} (b : Breaker) (now t : Int)
    (r : Except ε α) (h1 : b.last_open = some t)
    (h2 : now - t < b.reenable_after) :
    b.call now r = (b, CallResult.breakerOpen) := by
  have ho : b.isOpen now = true := by
    simp [Breaker.isOpen, h1]; omega
  simp [Breaker.call, ho]

/-- C4, witness: a concrete open breaker rejects a failing operation
outcome untouched. -/
theorem C4_witness :
    exC4.last_open = some 0 ∧ (5 : Int) - 0 < exC4.reenable_after ∧
    exC4.call 5 (Except.error () : Except Unit Unit) = (exC4, CallResult.breakerOpen) :=
  ⟨rfl, by decide, C4_open_rejects exC4 5 0 (Except.error ()) rfl (by decide)⟩

/-! ## Shared helper: valid strategies never raise in `process_error` -/

/-- With a supported strategy, `process_error` raises nothing: both
dispatch branches of `should_open` return a boolean, and the half-open
short-circuit skips the dispatch entirely. -/
lemma Breaker.process_error_no_raise (b : Breaker) (now : Int)
    (hs : b.strategy = "absolute" ∨ b.strategy = "percentage") :
    (b.process_error now).2 = none := by
  rcases hs with h | h <;>
    simp only [Breaker.process_error, Breaker.should_open, h] <;>
    split <;> simp_all <;> split <;> simp_all

/-! ## C5 — percentage strategy gate and formula -/

/-- A percentage breaker (`threshold = 10`) with six in-window calls. -/
def exC5 : Breaker :=
  { Breaker.init 10 none 60 300 "percentage" with calls := [1, 2, 3, 4, 5, 6] }

/-- C5: with the percentage strategy, fewer than 5 in-window calls means
the trip decision is `False` regardless of the error count; with at least
5 calls it is true iff `errorCount * 100 / len(calls) >= threshold`
(Python 2 integer floor division). -/
theorem C5_percentage_gate (b : Breaker) (c : Nat)
    (hs : b.strategy = "percentage") :
    (b.calls.length < 5 → b.should_open c = Except.ok false) ∧
    (5 ≤ b.calls.length →
      (b.should_open c = Except.ok true ↔
        b.threshold ≤ ((c * 100 / b.calls.length : Nat) : Int))) := by
  have hdisp : b.should_open c = Except.ok (b.should_open_percentage c) := by
    simp [Breaker.should_open, hs]
  constructor
  · intro h
    rw [hdisp]
    simp [Breaker.should_open_percentage, Breaker.minimum_threshold, h]
  · intro h
    rw [hdisp]
    simp [Breaker.should_open_percentage, Breaker.minimum_threshold,
      Nat.not_lt.mpr h]

/-- C5, witness: a concrete percentage breaker with 6 calls, where one
error gives 16% ≥ 10%. -/
theorem C5_witness :
    exC5.strategy = "percentage" ∧
    ((exC5.calls.length < 5 → exC5.should_open 1 = Except.ok false) ∧
     (5 ≤ exC5.calls.length →
       (exC5.should_open 1 = Except.ok true ↔
         exC5.threshold ≤ ((1 * 100 / exC5.calls.length : Nat) : Int)))) :=
  ⟨rfl, C5_percentage_gate exC5 1 rfl⟩

/-! ## C6 — absolute strategy opens iff the windowed count reaches threshold -/

/-- The cardinality returned by `increment_rolling_window` is the pruned
length plus one for the entry just recorded. -/
lemma Breaker.increment_rolling_window_snd (now d : Int) (w : List Int) :
    (Breaker.increment_rolling_window now d w).2 =
      (Breaker.prune now d w).length + 1 := by
  simp [Breaker.increment_rolling_window]

/-- Characterization of `process_error` on a closed absolute breaker: it
trips exactly when the windowed error count reaches the threshold. -/
lemma Breaker.process_error_closed_absolute (b : Breaker) (now : Int)
    (hs : b.strategy = "absolute") (hc : b.last_open = none) :
    (b.process_error now).1.last_open =
      (if b.threshold ≤ ((Breaker.increment_rolling_window now b.duration b.errors).2 : Int)
        then some now else none) := by
  by_cases hd : b.threshold ≤ ((Breaker.increment_rolling_window now b.duration b.errors).2 : Int)
  · simp [Breaker.process_error, Breaker.half_open, Breaker.should_open, hs,
      hc, Breaker.should_open_absolute, Breaker.trip, hd]
  · simp [Breaker.process_error, Breaker.half_open, Breaker.should_open, hs,
      hc, Breaker.should_open_absolute, Breaker.trip, hd]

/-- A closed absolute breaker with `threshold = 2` and one in-window
error. -/
def exC6 : Breaker := { Breaker.init 2 with errors := [5] }

/-- C6: for a closed breaker (`lastOpenAt = None`) with the absolute
strategy, processing a failure opens the breaker (sets `lastOpenAt = now`)
iff the number of errors in the pruned window including the new one
reaches the threshold; in particular `threshold = 1` opens on the first
error, independent of call volume. -/
theorem C6_absolute_trips (b : Breaker) (now : Int)
    (hs : b.strategy = "absolute") (hc : b.last_open = none) :
    ((b.process_error now).1.last_open = some now ↔
      b.threshold ≤ ((Breaker.increment_rolling_window now b.duration b.errors).2 : Int)) ∧
    (b.threshold = 1 → (b.process_error now).1.last_open = some now) := by
  have hkey := Breaker.process_error_closed_absolute b now hs hc
  rw [hkey]
  constructor
  · by_cases ht : b.threshold ≤ ((Breaker.increment_rolling_window now b.duration b.errors).2 : Int)
    · simp [ht]
    · simp [ht]
  · intro h1
    have hpos : b.threshold ≤ ((Breaker.increment_rolling_window now b.duration b.errors).2 : Int) := by
      rw [h1, Breaker.increment_rolling_window_snd]
      omega
    rw [if_pos hpos]

/-- C6, witness: threshold 2, one old in-window error plus the new one
reaches 2, so the breaker opens. -/
theorem C6_witness :
    exC6.strategy = "absolute" ∧ exC6.last_open = none ∧
    (((exC6.process_error 6).1.last_open = some 6 ↔
       exC6.threshold ≤ ((Breaker.increment_rolling_window 6 exC6.duration exC6.errors).2 : Int)) ∧
     (exC6.threshold = 1 → (exC6.process_error 6).1.last_open = some 6)) :=
  ⟨rfl, rfl, C6_absolute_trips exC6 6 rfl rfl⟩

/-! ## C7 — window eviction boundary -/

/-- C7, counterexample: the claim says an error at `T` stops counting once
`now - T >= duration`.  With `T = 0`, `duration = 10`, `now = 10` we have
`now - T = duration`, yet the inclusive `irange(now - duration)` keeps the
entry: pruning returns `[0]` and the count after recording the new error
is 2, so the old error is still counted. -/
theorem C7_counterexample :
    (10 : Int) - 0 ≥ (10 : Int) ∧
    Breaker.prune 10 10 [0] = [0] ∧
    Breaker.increment_rolling_window 10 10 [(0 : Int)] = ([0, 10], 2) := by
  decide

/-- C7, amended: an error recorded at `T` is no longer counted once
`now - T > duration` (strictly): the next window access prunes it, and
the count the trip decision sees is the pruned length plus one for the
newly recorded entry. -/
theorem C7_amended (now d T : Int) (w : List Int) (h : d < now - T) :
    T ∉ Breaker.prune now d w ∧
    (Breaker.increment_rolling_window now d w).2 =
      (Breaker.prune now d w).length + 1 := by
  constructor
  · simp only [Breaker.prune, List.mem_filter, decide_eq_true_eq, not_and]
    intro _
    omega
  · simp [Breaker.increment_rolling_window]

/-- C7, witness: with `duration = 10`, an error at 0 is evicted at
`now = 11`. -/
theorem C7_witness :
    (10 : Int) < 11 - 0 ∧
    ((0 : Int) ∉ Breaker.prune 11 10 [0, 5] ∧
     (Breaker.increment_rolling_window 11 10 [(0 : Int), 5]).2 =
       (Breaker.prune 11 10 [(0 : Int), 5]).length + 1) :=
  ⟨by decide, C7_amended 11 10 0 [0, 5] (by decide)⟩

/-! ## C8 — the operation's error is re-raised -/

/-- A breaker constructed with an unsupported strategy string. -/
def exC8 : Breaker := Breaker.init 5 none 60 300 "bogus"

/-- A closed absolute breaker with `threshold = 1`. -/
def exC8w : Breaker := Breaker.init 1

/-- C8, counterexample: the claim says the operation's own error is
re-raised under any configured strategy.  With strategy `"bogus"` (which
the constructor accepts), a failing call makes `should_open` raise
`NotImplementedError` inside the `except` handler, and that internal
error — not the operation's `"boom"` — propagates to the caller. -/
theorem C8_counterexample :
    (exC8.call 0 (Except.error "boom" : Except String Unit)).2 =
      CallResult.internalError
        "NotImplementedError: `bogus` strategy is not implemented" ∧
    (exC8.call 0 (Except.error "boom" : Except String Unit)).2 ≠
      CallResult.opError "boom" := by
  constructor
  · rfl
  · decide

/-- C8, amended: under the two supported strategies (`absolute` and
`percentage`), a guarded call in any non-open state whose operation fails
re-raises that same error after the bookkeeping completes; the breaker
never swallows or replaces it. -/
theorem C8_reraise {ε α : Type} (b : Breaker) (now : Int) (e : ε)
    (hs : b.strategy = "absolute" ∨ b.strategy = "percentage")
    (ho : b.isOpen now = false) :
    (b.call now (Except.error e : Except ε α)).2 = CallResult.opError e := by
  have h2 : (({ b with calls := (Breaker.increment_rolling_window now b.duration b.calls).1 } : Breaker).process_error now).2 = none :=
    Breaker.process_error_no_raise _ now hs
  rcases hp : ({ b with calls := (Breaker.increment_rolling_window now b.duration b.calls).1 } : Breaker).process_error now with ⟨b2, o⟩
  rw [hp] at h2
  simp only at h2
  subst h2
  simp [Breaker.call, ho, hp]

/-- C8, witness: a concrete closed absolute breaker re-raises `"boom"`. -/
theorem C8_witness :
    (exC8w.strategy = "absolute" ∨ exC8w.strategy = "percentage") ∧
    exC8w.isOpen 0 = false ∧
    (exC8w.call 0 (Except.error "boom" : Except String Unit)).2 =
      CallResult.opError "boom" :=
  ⟨Or.inl rfl, rfl, C8_reraise exC8w 0 "boom" (Or.inl rfl) rfl⟩

/-! ## C9 — Reset clears exactly lastOpenAt and errors -/

/-- A breaker that is strictly half-open at time 11
(`reenable_after = 5`, tripped at 0). -/
def exC9 : Breaker := { Breaker.init 5 none 60 5 with last_open := some 0 }

/-- C9: `reset` sets `lastOpenAt` to `None` and empties the errors window,
and changes nothing else — the calls window and every configuration field
are untouched; and it is exactly the state change a successful half-open
probe performs. -/
theorem C9_reset_frame (b : Breaker) (now : Int) :
    b.reset.last_open = none ∧ b.reset.errors = [] ∧
    b.reset.calls = b.calls ∧ b.reset.service = b.service ∧
    b.reset.strategy = b.strategy ∧ b.reset.duration = b.duration ∧
    b.reset.threshold = b.threshold ∧
    b.reset.reenable_after = b.reenable_after ∧
    (b.half_open now = true → b.process_success now = b.reset) := by
  refine ⟨rfl, rfl, rfl, rfl, rfl, rfl, rfl, rfl, ?_⟩
  intro h
  simp [Breaker.process_success, h]

/-- C9, witness: a concrete half-open breaker's successful probe performs
exactly `reset`. -/
theorem C9_witness :
    exC9.half_open 11 = true ∧ exC9.process_success 11 = exC9.reset :=
  ⟨by decide, (C9_reset_frame exC9 11).2.2.2.2.2.2.2.2 (by decide)⟩

/-! ## C10 — no division by zero in the percentage strategy -/

/-- A freshly constructed percentage breaker: no calls ever recorded. -/
def exC10 : Breaker := Breaker.init 10 none 60 300 "percentage"

/-- C10: with an empty calls window the percentage trip decision returns
`False` at the minimum-volume gate (0 < 5) before the division is ever
evaluated, so processing an error with no recorded call raises nothing. -/
theorem C10_no_div_by_zero (b : Breaker) (c : Nat) (now : Int)
    (h : b.calls = []) (hs : b.strategy = "percentage") :
    b.should_open_percentage c = false ∧ (b.process_error now).2 = none := by
  constructor
  · simp [Breaker.should_open_percentage, h, Breaker.minimum_threshold]
  · exact Breaker.process_error_no_raise b now (Or.inr hs)

/-- C10, witness: a fresh percentage breaker processes an error safely. -/
theorem C10_witness :
    exC10.calls = [] ∧ exC10.strategy = "percentage" ∧
    (exC10.should_open_percentage 7 = false ∧
     (exC10.process_error 0).2 = none) :=
  ⟨rfl, rfl, C10_no_div_by_zero exC10 7 0 rfl rfl⟩
